import Mathlib

/-!
Shallow embedding of the marengo-mongodb-video-search repository's fusion and
scoring engine, its score normalization, its ingestion index assignment and its
migration / pipeline scripts, together with theorems settling the spec's claims.

Scores, weights and times are modelled as rationals; backend-native values are
taken as given inputs.  The fusion engine itself (`search_with_fusion` /
`compute_dynamic_weights` in `s3_vectors_client.py` / `search_client.py`) is not
among the repository files available here — only its tests and callers are — so
those definitions are modelled from the spec and are marked as such.
-/

/-- The three modalities of the data model (spec §3, glossary). -/
inductive Modality where
  | visual
  | audio
  | transcription
deriving DecidableEq, Repr

open Modality

/-- The fixed list of all modalities, in the order the source enumerates them
(`["visual", "audio", "transcription"]`). -/
def allModalities : List Modality := [visual, audio, transcription]

/-! ## Weighted fusion (spec §4.2, weighted policy)

Modelled from the spec: the fusion engine (`search_with_fusion`) lives in
`s3_vectors_client.py`, which is not among the available source files; the
definitions below follow spec §4.2 steps 1–4 literally. -/

/-- Modelled from the spec: §4.2 step 2 — the modalities, among those requested,
for which this identity actually has a score (absence ≠ 0). -/
def presentModalities (requested : List Modality) (scores : Modality → Option ℚ) :
    List Modality :=
  requested.filter (fun m => (scores m).isSome)

/-- Sum of the supplied static weights over a list of modalities. -/
def weightSum (w : Modality → ℚ) (ms : List Modality) : ℚ :=
  (ms.map w).sum

/-- The score of a modality for an identity, defaulting to 0 when absent
(only ever read on present modalities). -/
def scoreOf (scores : Modality → Option ℚ) (m : Modality) : ℚ :=
  (scores m).getD 0

/-- Modelled from the spec: §4.2 steps 3–4 — renormalize the supplied weights
over exactly the modalities present for this identity among those requested,
then take the weighted sum of the scores. -/
def weightedFusionScore (requested : List Modality) (w : Modality → ℚ)
    (scores : Modality → Option ℚ) : ℚ :=
  let present := presentModalities requested scores
  let W := weightSum w present
  (present.map (fun m => (w m / W) * scoreOf scores m)).sum

/-! ## Per-modality retrieval results and result-set fusion

A backend retrieval for one modality either fails (`none`) or returns an
ordered list of (identity, normalized score) pairs (`some`, possibly empty:
"no matches" is not an error, spec §7). -/

/-- A per-modality retrieval outcome: `none` models a backend failure,
`some l` a successful retrieval. -/
abbrev Retrieval := Modality → Option (List (String × ℚ))

/-- The normalized score an identity obtained in one modality's result list,
if any (first entry for that identity; spec §6 deduplication keeps one). -/
def identityScore (retrieve : Retrieval) (m : Modality) (id : String) : Option ℚ :=
  match retrieve m with
  | none => none
  | some l => (l.find? (fun p => p.1 == id)).map (fun p => p.2)

/-- Modelled from the spec: §4.2 step 1 — the union of identities appearing in
any requested modality's result list. -/
def unionIdentities (ms : List Modality) (retrieve : Retrieval) : List String :=
  ((ms.map (fun m => ((retrieve m).getD []).map (fun p => p.1))).flatten).dedup

/-- Modelled from the spec: the weighted-policy fused result set — one
(identity, fusion score) pair per identity in the union, scored by
`weightedFusionScore` over the modalities where the identity is present. -/
def fuseWeighted (requested : List Modality) (w : Modality → ℚ)
    (retrieve : Retrieval) : List (String × ℚ) :=
  (unionIdentities requested retrieve).map
    (fun id => (id, weightedFusionScore requested w (fun m => identityScore retrieve m id)))

/-! Helper lemmas about the weighted policy. -/

theorem presentModalities_singleton_some {m : Modality} {scores : Modality → Option ℚ}
    {s : ℚ} (h : scores m = some s) : presentModalities [m] scores = [m] := by
  simp [presentModalities, h]

theorem weightedFusionScore_single (m : Modality) (w : Modality → ℚ)
    (scores : Modality → Option ℚ) (s : ℚ) (hw : w m ≠ 0) (hs : scores m = some s) :
    weightedFusionScore [m] w scores = s := by
  unfold weightedFusionScore
  rw [presentModalities_singleton_some hs]
  simp [weightSum, scoreOf, hs, div_self hw]

theorem mem_unionIdentities {ms : List Modality} {retrieve : Retrieval} {id : String}
    (h : id ∈ unionIdentities ms retrieve) :
    ∃ m ∈ ms, ∃ l, retrieve m = some l ∧ ∃ p ∈ l, p.1 = id := by
  unfold unionIdentities at h
  rw [List.mem_dedup] at h
  simp only [List.mem_flatten, List.mem_map] at h
  obtain ⟨_, ⟨m, hm, rfl⟩, hid⟩ := h
  refine ⟨m, hm, ?_⟩
  cases hr : retrieve m with
  | none => rw [hr] at hid; simp at hid
  | some l =>
      rw [hr] at hid
      simp only [Option.getD_some, List.mem_map] at hid
      obtain ⟨p, hp, rfl⟩ := hid
      exact ⟨l, rfl, p, hp, rfl⟩

theorem identityScore_isSome_of_mem {retrieve : Retrieval} {m : Modality} {l : List (String × ℚ)}
    {id : String} (hr : retrieve m = some l) (hmem : ∃ p ∈ l, p.1 = id) :
    ∃ s, identityScore retrieve m id = some s := by
  simp only [identityScore, hr]
  obtain ⟨p, hp, hpid⟩ := hmem
  have hfind : (l.find? (fun q => q.1 == id)).isSome := by
    rw [List.find?_isSome]
    exact ⟨p, hp, by simp [hpid]⟩
  obtain ⟨q, hq⟩ := Option.isSome_iff_exists.mp hfind
  exact ⟨q.2, by rw [hq]; rfl⟩

/-! ## Concrete configurations used by witnesses and scenario claims -/

/-- The repository's default static weight vector
`{"visual": 0.8, "audio": 0.1, "transcription": 0.05}` (final_test.py, test_fixes.py). -/
def wDefault : Modality → ℚ
  | visual => 8/10
  | audio => 1/10
  | transcription => 1/20

/-- A transcription-only retrieval outcome: one match with normalized score 0.87,
the other modalities not searched / without results. -/
def retTransOnly : Retrieval
  | visual => none
  | audio => some []
  | transcription => some [("vid3_seg7", 87/100)]

/-- The spec §8 scenario's raw normalized scores:
visual = 0.91, audio = 0.40, transcription = 0.87, all present. -/
def scoresScenario : Modality → Option ℚ
  | visual => some (91/100)
  | audio => some (2/5)
  | transcription => some (87/100)

/-! ## Claim theorems -/

/-- C1: for a search requesting exactly one modality `m` with static
`weight[m] > 0`, every returned result's weighted fusion score equals that
result's raw normalized score for `m` — weights are renormalized over only the
modalities present among those requested, so single-modality searches are never
diluted by the other configured weights. -/
theorem weighted_single_modality_undiluted (m : Modality) (w : Modality → ℚ)
    (retrieve : Retrieval) (id : String) (p : ℚ)
    (hw : 0 < w m) (hmem : (id, p) ∈ fuseWeighted [m] w retrieve) :
    ∃ s, identityScore retrieve m id = some s ∧ p = s := by
  unfold fuseWeighted at hmem
  rw [List.mem_map] at hmem
  obtain ⟨id0, hid0, heq⟩ := hmem
  rw [Prod.mk.injEq] at heq
  obtain ⟨rfl, rfl⟩ := heq
  obtain ⟨m0, hm0, l, hl, hentry⟩ := mem_unionIdentities hid0
  rw [List.mem_singleton] at hm0
  subst hm0
  obtain ⟨s, hs⟩ := identityScore_isSome_of_mem hl hentry
  exact ⟨s, hs, weightedFusionScore_single _ w _ s (ne_of_gt hw) hs⟩

theorem weighted_single_modality_undiluted_witness :
    0 < wDefault transcription ∧
    ("vid3_seg7", (87 : ℚ)/100) ∈ fuseWeighted [transcription] wDefault retTransOnly ∧
    ∃ s, identityScore retTransOnly transcription "vid3_seg7" = some s ∧ (87 : ℚ)/100 = s := by
  have hw : (0 : ℚ) < wDefault transcription := by norm_num [wDefault]
  have hmem : ("vid3_seg7", (87 : ℚ)/100) ∈ fuseWeighted [transcription] wDefault retTransOnly := by
    norm_num [fuseWeighted, unionIdentities, retTransOnly, weightedFusionScore,
      presentModalities, weightSum, scoreOf, identityScore, wDefault, List.dedup]
  exact ⟨hw, hmem,
    weighted_single_modality_undiluted transcription wDefault retTransOnly "vid3_seg7" (87/100)
      hw hmem⟩

/-- C2: for every identity for which all `N` requested modalities have a score,
the weighted-policy fusion score equals the weighted average
`Σ (w_i / Σ w) * score_i` over the requested modalities, for arbitrary positive
static weight vectors. -/
theorem weighted_average_all_present (requested : List Modality) (w : Modality → ℚ)
    (scores : Modality → Option ℚ)
    (_hw : ∀ m ∈ requested, 0 < w m)
    (hall : ∀ m ∈ requested, (scores m).isSome) :
    weightedFusionScore requested w scores =
      (requested.map (fun m => (w m / weightSum w requested) * scoreOf scores m)).sum := by
  unfold weightedFusionScore
  have hpres : presentModalities requested scores = requested := by
    unfold presentModalities
    exact List.filter_eq_self.mpr (fun m hm => hall m hm)
  rw [hpres]

theorem weighted_average_all_present_witness :
    (∀ m ∈ allModalities, 0 < wDefault m) ∧
    (∀ m ∈ allModalities, (scoresScenario m).isSome) ∧
    weightedFusionScore allModalities wDefault scoresScenario =
      (allModalities.map
        (fun m => (wDefault m / weightSum wDefault allModalities) * scoreOf scoresScenario m)).sum := by
  have hw : ∀ m ∈ allModalities, (0 : ℚ) < wDefault m := by
    intro m hm
    fin_cases hm <;> norm_num [wDefault]
  have hall : ∀ m ∈ allModalities, (scoresScenario m).isSome := by decide
  exact ⟨hw, hall, weighted_average_all_present allModalities wDefault scoresScenario hw hall⟩

/-- C4 counterexample: with raw scores visual = 0.91, audio = 0.40,
transcription = 0.87 and static weights {0.8, 0.1, 0.05}, the weighted fusion
score is not 0.7955 (the spec scenario's arithmetic is wrong: the unnormalized
dot product is 0.8115 and the weight sum is 0.95, not 1.0). -/
theorem weighted_scenario_not_0_7955 :
    weightedFusionScore allModalities wDefault scoresScenario ≠ 1591/2000 := by
  norm_num [weightedFusionScore, presentModalities, weightSum, scoreOf, allModalities,
    wDefault, scoresScenario]

/-- C4 (amended): with raw scores visual = 0.91, audio = 0.40,
transcription = 0.87 and static weights {0.8, 0.1, 0.05}, the weighted-policy
fusion score equals (0.8·0.91 + 0.1·0.40 + 0.05·0.87) / 0.95 = 1623/1900
≈ 0.8542, the weights being renormalized by their sum 0.95. -/
theorem weighted_scenario_value :
    weightedFusionScore allModalities wDefault scoresScenario = 1623/1900 := by
  norm_num [weightedFusionScore, presentModalities, weightSum, scoreOf, allModalities,
    wDefault, scoresScenario]

/-! ## Rank-based (reciprocal-rank) fusion (spec §4.2, rank-based policy)

Modelled from the spec: the RRF branch of `search_with_fusion` is in the missing
`s3_vectors_client.py`; the definitions follow spec §4.2 rank-based steps 1–2. -/

/-- The modalities, among those requested, in which an identity was ranked. -/
def presentRanks (requested : List Modality) (ranks : Modality → Option ℕ) : List Modality :=
  requested.filter (fun m => (ranks m).isSome)

/-- The rank of an identity in one modality, defaulting to 0 when absent
(only ever read on present modalities; rank 1 = best). -/
def rankOf (ranks : Modality → Option ℕ) (m : Modality) : ℕ :=
  (ranks m).getD 0

/-- Modelled from the spec: §4.2 rank-based step 2 — for one identity with
per-modality ranks (`none` = absent from that modality's list), the fusion score
adds `1 / (K + rank[m])` for each present requested modality and nothing for the
absent ones. -/
def rrfFusionScore (requested : List Modality) (K : ℚ) (ranks : Modality → Option ℕ) : ℚ :=
  (requested.map (fun m =>
    match ranks m with
    | some r => 1 / (K + (r : ℚ))
    | none => 0)).sum

/-- The spec §8 RRF scenario's ranks: 1st in visual, 3rd in audio, absent from
transcription. -/
def ranksScenario : Modality → Option ℕ
  | visual => some 1
  | audio => some 3
  | transcription => none

theorem rrfFusionScore_eq_present_sum (requested : List Modality) (K : ℚ)
    (ranks : Modality → Option ℕ) :
    rrfFusionScore requested K ranks =
      ((presentRanks requested ranks).map (fun m => 1 / (K + (rankOf ranks m : ℚ)))).sum := by
  induction requested with
  | nil => rfl
  | cons m ms ih =>
      unfold rrfFusionScore presentRanks at ih ⊢
      rw [List.map_cons, List.sum_cons, List.filter_cons, ih]
      cases h : ranks m with
      | none => simp [h]
      | some r => simp [h, rankOf]

/-- C5: under the rank-based policy the fusion score is the sum over present
modalities of `1 / (K + rank[m])`; with the smoothing constant K = 60, an
identity ranked 1st in visual and 3rd in audio and absent from transcription
receives fusion score 1/61 + 1/63. -/
theorem rrf_fusion_formula :
    (∀ (requested : List Modality) (K : ℚ) (ranks : Modality → Option ℕ),
      rrfFusionScore requested K ranks =
        ((presentRanks requested ranks).map (fun m => 1 / (K + (rankOf ranks m : ℚ)))).sum) ∧
    rrfFusionScore allModalities 60 ranksScenario = 1/61 + 1/63 := by
  constructor
  · exact rrfFusionScore_eq_present_sum
  · norm_num [rrfFusionScore, allModalities, ranksScenario]

/-! ## Score normalization for distance-based backends (spec §4.1)

This conversion does appear in the available source: every distance-handling
site computes `score = 1 - distance` with no clamping
(`inspect_s3_raw_distance.py` line 48, `debug_unified_search.py` line 74,
`test_unified_search.py` line 76). -/

/-- The distance-to-score conversion the source applies to a distance-based
backend's raw value: `score = 1 - distance`, with no clamping. -/
def score_of_distance (d : ℚ) : ℚ := 1 - d

/-- Clamp to the unit interval. -/
def clamp01 (x : ℚ) : ℚ := max 0 (min 1 x)

/-- Stated from the spec's words (§4.1), for comparison with the source's
conversion: `score = clamp(1 - distance, 0, 1)`. -/
def specNormalizedScore (d : ℚ) : ℚ := clamp01 (1 - d)

/-- C3 counterexample: at distance d = 1.5 the source's conversion yields
-0.5: it differs from the spec's `clamp(1 - d, 0, 1)` (which is 0) and is
negative, refuting "every normalized score lies in [0, 1]". -/
theorem score_of_distance_unclamped_at_1_5 :
    score_of_distance (3/2) = -(1/2) ∧
    score_of_distance (3/2) ≠ specNormalizedScore (3/2) ∧
    score_of_distance (3/2) < 0 := by
  refine ⟨?_, ?_, ?_⟩ <;> norm_num [score_of_distance, specNormalizedScore, clamp01]

/-- C3 (amended): the source converts with `score = 1 - distance` and applies no
clamp; this agrees with the spec's `clamp(1 - d, 0, 1)` whenever d ∈ [0, 1],
but the score is negative whenever d > 1. -/
theorem score_of_distance_clamp_agreement (d : ℚ) :
    (0 ≤ d → d ≤ 1 → score_of_distance d = specNormalizedScore d) ∧
    (1 < d → score_of_distance d < 0) := by
  constructor
  · intro h0 h1
    unfold score_of_distance specNormalizedScore clamp01
    rw [min_eq_right (by linarith), max_eq_right (by linarith)]
  · intro h
    unfold score_of_distance
    linarith

theorem score_of_distance_clamp_agreement_witness :
    ((0 : ℚ) ≤ 1/4 ∧ (1/4 : ℚ) ≤ 1 ∧ score_of_distance (1/4) = specNormalizedScore (1/4)) ∧
    ((1 : ℚ) < 3/2 ∧ score_of_distance (3/2) < 0) :=
  ⟨⟨by norm_num, by norm_num,
      (score_of_distance_clamp_agreement (1/4)).1 (by norm_num) (by norm_num)⟩,
    ⟨by norm_num, (score_of_distance_clamp_agreement (3/2)).2 (by norm_num)⟩⟩

/-! ## Dynamic weight router (spec §4.3)

Modelled from the spec: `compute_dynamic_weights` is in the missing
`search_client.py`.  The cosine-similarity step is abstracted by taking the
per-modality anchor similarities as input, and the exponential is abstracted as
a parameter `e` (any strictly positive function models `exp`), which keeps the
definition computable. -/

/-- Modelled from the spec: §4.3 — softmax with temperature `T` over the
query-anchor similarities: `weight[m] = e(sim[m]/T) / Σ_k e(sim[k]/T)`. -/
def computeDynamicWeights (e : ℚ → ℚ) (sims : Modality → ℚ) (T : ℚ) : Modality → ℚ :=
  fun m => e (sims m / T) / (allModalities.map (fun k => e (sims k / T))).sum

/-- C6: for any temperature T > 0 and any similarities, the dynamic weights
returned by the softmax sum to exactly 1 (hence within 1e-6) and every weight
lies strictly between 0 and 1, provided the exponential-like function is
strictly positive. -/
theorem dynamic_weights_normalized (e : ℚ → ℚ) (sims : Modality → ℚ) (T : ℚ)
    (_hT : 0 < T) (he : ∀ x, 0 < e x) :
    (allModalities.map (computeDynamicWeights e sims T)).sum = 1 ∧
    ∀ m, 0 < computeDynamicWeights e sims T m ∧ computeDynamicWeights e sims T m < 1 := by
  have ha := he (sims visual / T)
  have hb := he (sims audio / T)
  have hc := he (sims transcription / T)
  have hD : 0 < e (sims visual / T) + (e (sims audio / T) + e (sims transcription / T)) := by
    linarith
  constructor
  · simp only [computeDynamicWeights, allModalities, List.map_cons, List.map_nil,
      List.sum_cons, List.sum_nil, add_zero]
    field_simp
  · intro m
    have hlt : ∀ x : ℚ, 0 < x →
        x < e (sims visual / T) + (e (sims audio / T) + e (sims transcription / T)) →
        0 < x / (e (sims visual / T) + (e (sims audio / T) + e (sims transcription / T))) ∧
        x / (e (sims visual / T) + (e (sims audio / T) + e (sims transcription / T))) < 1 := by
      intro x hx hxD
      exact ⟨div_pos hx hD, (div_lt_one hD).mpr hxD⟩
    cases m <;>
      · simp only [computeDynamicWeights, allModalities, List.map_cons, List.map_nil,
          List.sum_cons, List.sum_nil, add_zero]
        exact hlt _ (by linarith) (by linarith)

theorem dynamic_weights_normalized_witness :
    (0 : ℚ) < 10 ∧ (∀ x : ℚ, 0 < x ^ 2 + 1) ∧
    (allModalities.map (computeDynamicWeights (fun x => x ^ 2 + 1) (fun _ => 0) 10)).sum = 1 ∧
    ∀ m, 0 < computeDynamicWeights (fun x => x ^ 2 + 1) (fun _ => 0) 10 m ∧
      computeDynamicWeights (fun x => x ^ 2 + 1) (fun _ => 0) 10 m < 1 :=
  ⟨by norm_num, fun x => by positivity,
    dynamic_weights_normalized (fun x => x ^ 2 + 1) (fun _ => 0) 10 (by norm_num)
      (fun x => by positivity)⟩

/-! ## Search orchestrator failure policy (spec §4.4, §7)

Modelled from the spec: the orchestrator (`VideoSearchClient.search`) is in the
missing `search_client.py`.  A modality whose backend retrieval fails is
excluded; fusion proceeds over the surviving modalities with a `degraded`
annotation; only when every requested modality fails does the search raise
`SearchFailed`. -/

/-- The fused response of a degradable search: the `degraded` annotation, the
excluded modalities, and the fused results over the surviving ones. -/
structure FusionOutcome where
  degraded : Bool
  excluded : List Modality
  results : List (String × ℚ)
deriving DecidableEq, Repr

/-- Modelled from the spec: §4.4/§7 failure policy — fuse over the modalities
whose retrieval succeeded, annotate `degraded` and the excluded modalities when
some retrieval failed, and fail hard with `SearchFailed` exactly when no
requested modality's retrieval succeeded. -/
def searchWithDegradation (requested : List Modality) (w : Modality → ℚ)
    (retrieve : Retrieval) : Except String FusionOutcome :=
  let surviving := requested.filter (fun m => (retrieve m).isSome)
  let excluded := requested.filter (fun m => (retrieve m).isNone)
  if surviving.isEmpty then Except.error "SearchFailed"
  else Except.ok
    { degraded := !excluded.isEmpty
      excluded := excluded
      results := fuseWeighted surviving w retrieve }

/-- A retrieval outcome in which visual's backend failed while audio and
transcription succeeded. -/
def retPartial : Retrieval
  | visual => none
  | audio => some [("vid1_seg0", 3/5)]
  | transcription => some [("vid3_seg7", 87/100)]

/-- A retrieval outcome in which every modality's backend failed. -/
def retAllFail : Retrieval
  | visual => none
  | audio => none
  | transcription => none

/-- C7: when at least one but not all requested modalities' retrievals fail,
the search still returns fused results over the surviving modalities, annotated
with `degraded = true` and the excluded modalities; and it fails hard with an
error if and only if every requested modality's retrieval fails. -/
theorem isEmpty_false_of_ne_nil {l : List Modality} (h : l ≠ []) : l.isEmpty = false := by
  cases l with
  | nil => exact absurd rfl h
  | cons a t => rfl

theorem partial_failure_degradation (requested : List Modality) (w : Modality → ℚ)
    (retrieve : Retrieval) :
    ((∃ m ∈ requested, (retrieve m).isNone) → (∃ m ∈ requested, (retrieve m).isSome) →
      searchWithDegradation requested w retrieve =
        Except.ok
          { degraded := true
            excluded := requested.filter (fun m => (retrieve m).isNone)
            results :=
              fuseWeighted (requested.filter (fun m => (retrieve m).isSome)) w retrieve }) ∧
    ((∃ e, searchWithDegradation requested w retrieve = Except.error e) ↔
      ∀ m ∈ requested, (retrieve m).isNone) := by
  have hsurv : requested.filter (fun m => (retrieve m).isSome) = [] ↔
      ∀ m ∈ requested, (retrieve m).isNone := by
    rw [List.filter_eq_nil_iff]
    constructor
    · intro h m hm
      cases hr : retrieve m with
      | none => simp [hr]
      | some l => exact absurd (by simp [hr] : (retrieve m).isSome = true) (h m hm)
    · intro h m hm
      have hn := h m hm
      cases hr : retrieve m with
      | none => simp [hr]
      | some l => rw [hr] at hn; simp at hn
  constructor
  · intro hfail hsucc
    obtain ⟨mf, hmf, hmfn⟩ := hfail
    have hne : requested.filter (fun m => (retrieve m).isSome) ≠ [] := by
      intro h
      obtain ⟨ms, hms, hmss⟩ := hsucc
      have hn := hsurv.mp h ms hms
      rw [Option.isNone_iff_eq_none] at hn
      rw [hn] at hmss
      simp at hmss
    have hexc : requested.filter (fun m => (retrieve m).isNone) ≠ [] := by
      intro h
      rw [List.filter_eq_nil_iff] at h
      exact h mf hmf hmfn
    simp only [searchWithDegradation]
    rw [isEmpty_false_of_ne_nil hne, isEmpty_false_of_ne_nil hexc]
    simp
  · constructor
    · rintro ⟨e, he⟩
      by_cases h : requested.filter (fun m => (retrieve m).isSome) = []
      · exact hsurv.mp h
      · exfalso
        simp only [searchWithDegradation] at he
        rw [isEmpty_false_of_ne_nil h] at he
        simp at he
    · intro h
      refine ⟨"SearchFailed", ?_⟩
      simp only [searchWithDegradation]
      rw [hsurv.mpr h]
      rfl

theorem partial_failure_degradation_witness :
    (∃ m ∈ allModalities, (retPartial m).isNone) ∧
    (∃ m ∈ allModalities, (retPartial m).isSome) ∧
    searchWithDegradation allModalities wDefault retPartial =
      Except.ok
        { degraded := true
          excluded := allModalities.filter (fun m => (retPartial m).isNone)
          results :=
            fuseWeighted (allModalities.filter (fun m => (retPartial m).isSome))
              wDefault retPartial } ∧
    ((∃ e, searchWithDegradation allModalities wDefault retAllFail = Except.error e) ↔
      ∀ m ∈ allModalities, (retAllFail m).isNone) :=
  ⟨by decide, by decide,
    (partial_failure_degradation allModalities wDefault retPartial).1 (by decide) (by decide),
    (partial_failure_degradation allModalities wDefault retAllFail).2⟩

/-! ## Video processing pipeline (src/scripts/process_video_pipeline.py)

`VideoProcessingPipeline.process_video` runs four externally-effectful steps in
order inside one try block: Bedrock embedding generation, `insert_many` into
MongoDB, `store_all_segments` into S3 Vectors, then — only when the key is under
the `Ready/` prefix — `copy_object` to `proxy/` followed by `delete_object` of
the source.  The except handler sets `results["status"] = "failed"`.   Each
step's external call is modelled by whether it returns (`true`) or raises
(`false`). -/

/-- Outcomes of the external calls `process_video` makes, plus whether the video
key lies under the `Ready/` prefix. -/
structure PipelineEnv where
  bedrockOk : Bool
  mongoOk : Bool
  s3vOk : Bool
  copyOk : Bool
  deleteOk : Bool
  inReady : Bool
deriving DecidableEq, Repr

/-- Observable result of one `process_video` run: the returned status string and
which external effects completed. -/
structure PipelineResult where
  status : String
  mongoStored : Bool
  s3vStored : Bool
  proxyCopied : Bool
  sourceDeleted : Bool
deriving DecidableEq, Repr

/-- `process_video`: the first raising step aborts the remaining steps and
yields status "failed"; the source object is deleted from `Ready/` only in
step 4, after the copy to `proxy/` succeeded, and the move is skipped for keys
outside `Ready/`. -/
def process_video (env : PipelineEnv) : PipelineResult :=
  if !env.bedrockOk then
    { status := "failed", mongoStored := false, s3vStored := false,
      proxyCopied := false, sourceDeleted := false }
  else if !env.mongoOk then
    { status := "failed", mongoStored := false, s3vStored := false,
      proxyCopied := false, sourceDeleted := false }
  else if !env.s3vOk then
    { status := "failed", mongoStored := true, s3vStored := false,
      proxyCopied := false, sourceDeleted := false }
  else if env.inReady then
    if !env.copyOk then
      { status := "failed", mongoStored := true, s3vStored := true,
        proxyCopied := false, sourceDeleted := false }
    else if !env.deleteOk then
      { status := "failed", mongoStored := true, s3vStored := true,
        proxyCopied := true, sourceDeleted := false }
    else
      { status := "completed", mongoStored := true, s3vStored := true,
        proxyCopied := true, sourceDeleted := true }
  else
    { status := "completed", mongoStored := true, s3vStored := true,
      proxyCopied := false, sourceDeleted := false }

/-- C9: the source video object is deleted from `Ready/` only after embeddings
were stored in both MongoDB and S3 Vectors and the object was copied to
`proxy/` (and then the run completes); and whenever some step raised — so the
run's status is "failed" — the source object was not deleted. -/
theorem process_video_move_atomic (env : PipelineEnv) :
    ((process_video env).sourceDeleted = true →
      (process_video env).mongoStored = true ∧ (process_video env).s3vStored = true ∧
      (process_video env).proxyCopied = true ∧ (process_video env).status = "completed") ∧
    ((process_video env).status = "failed" → (process_video env).sourceDeleted = false) := by
  obtain ⟨b, m, s, c, d, r⟩ := env
  cases b <;> cases m <;> cases s <;> cases c <;> cases d <;> cases r <;>
    simp [process_video]

/-- The all-steps-succeed environment for a key under `Ready/`. -/
def envOk : PipelineEnv :=
  { bedrockOk := true, mongoOk := true, s3vOk := true,
    copyOk := true, deleteOk := true, inReady := true }

/-- An environment in which the S3 Vectors store raises. -/
def envS3vFails : PipelineEnv :=
  { bedrockOk := true, mongoOk := true, s3vOk := false,
    copyOk := true, deleteOk := true, inReady := true }

theorem process_video_move_atomic_witness :
    ((process_video envOk).sourceDeleted = true ∧
      ((process_video envOk).mongoStored = true ∧ (process_video envOk).s3vStored = true ∧
       (process_video envOk).proxyCopied = true ∧ (process_video envOk).status = "completed")) ∧
    ((process_video envS3vFails).status = "failed" ∧
      (process_video envS3vFails).sourceDeleted = false) :=
  ⟨⟨by decide, (process_video_move_atomic envOk).1 (by decide)⟩,
    ⟨by decide, (process_video_move_atomic envS3vFails).2 (by decide)⟩⟩

/-! ## MongoDB multi-index migration (src/scripts/migrate_to_multi_index.py)

`migrate_to_multi_index` iterates the modalities in the order visual, audio,
transcription; for each it skips the target collection if it already contains
documents, and otherwise inserts the `$project`-ed copies of the source
documents with that `modality_type`.  The source `video_embeddings` collection
is only ever read (`count_documents`, `aggregate`). -/

/-- A document of the source `video_embeddings` collection (the fields the
migration's `$project` stage names, plus `modality_type`). -/
structure MongoDoc where
  video_id : String
  segment_id : Nat
  s3_uri : String
  embedding : List ℚ
  start_time : ℚ
  end_time : ℚ
  created_at : Nat
  modality_type : Modality
deriving DecidableEq, Repr

/-- A document of a modality-specific target collection: `modality_type` is
dropped (implicit in the collection name) and `_id` is regenerated. -/
structure ModalityDoc where
  video_id : String
  segment_id : Nat
  s3_uri : String
  embedding : List ℚ
  start_time : ℚ
  end_time : ℚ
  created_at : Nat
deriving DecidableEq, Repr

/-- The `$project` stage of the migration pipeline: keep the listed fields,
drop `modality_type` (and `_id`, regenerated on insert). -/
def projectDoc (d : MongoDoc) : ModalityDoc :=
  { video_id := d.video_id, segment_id := d.segment_id, s3_uri := d.s3_uri,
    embedding := d.embedding, start_time := d.start_time, end_time := d.end_time,
    created_at := d.created_at }

/-- The collections `migrate_to_multi_index` touches: the source
`video_embeddings` and the three modality-specific targets. -/
structure MigrationDB where
  source : List MongoDoc
  visualT : List ModalityDoc
  audioT : List ModalityDoc
  transcriptionT : List ModalityDoc
deriving DecidableEq, Repr

/-- The target collection for a modality. -/
def targetOf (db : MigrationDB) : Modality → List ModalityDoc
  | visual => db.visualT
  | audio => db.audioT
  | transcription => db.transcriptionT

/-- Replace one modality's target collection. -/
def setTarget (db : MigrationDB) (m : Modality) (l : List ModalityDoc) : MigrationDB :=
  match m with
  | visual => { db with visualT := l }
  | audio => { db with audioT := l }
  | transcription => { db with transcriptionT := l }

/-- One iteration of the migration loop: skip if the target already has
documents (`existing > 0`), otherwise insert the projected source documents
with this `modality_type` (inserting an empty list is the loop's no-op branch). -/
def migrateModality (db : MigrationDB) (m : Modality) : MigrationDB :=
  if (targetOf db m).length > 0 then db
  else
    setTarget db m
      (targetOf db m ++ (db.source.filter (fun d => d.modality_type == m)).map projectDoc)

/-- `migrate_to_multi_index`: run the loop body for visual, audio,
transcription in order. -/
def migrate_to_multi_index (db : MigrationDB) : MigrationDB :=
  migrateModality (migrateModality (migrateModality db visual) audio) transcription

theorem migrateModality_source (db : MigrationDB) (m : Modality) :
    (migrateModality db m).source = db.source := by
  unfold migrateModality
  split
  · rfl
  · cases m <;> rfl

theorem migrateModality_skip (db : MigrationDB) (m : Modality)
    (h : targetOf db m ≠ []) : migrateModality db m = db := by
  unfold migrateModality
  rw [if_pos]
  cases hT : targetOf db m with
  | nil => exact absurd hT h
  | cons a t => simp

theorem migrateModality_other (db : MigrationDB) (m k : Modality) (h : m ≠ k) :
    targetOf (migrateModality db m) k = targetOf db k := by
  unfold migrateModality
  split
  · rfl
  · cases m <;> cases k <;> first | exact absurd rfl h | rfl

/-- C10: `migrate_to_multi_index` never modifies the source `video_embeddings`
collection, and every target modality collection that already contains
documents is left untouched — so the source is identical before and after any
run, and a repeated run inserts nothing into already-populated targets. -/
theorem migrate_to_multi_index_frame (db : MigrationDB) :
    (migrate_to_multi_index db).source = db.source ∧
    ∀ m : Modality, targetOf db m ≠ [] →
      targetOf (migrate_to_multi_index db) m = targetOf db m := by
  constructor
  · unfold migrate_to_multi_index
    rw [migrateModality_source, migrateModality_source, migrateModality_source]
  · intro m hm
    unfold migrate_to_multi_index
    cases m with
    | visual =>
        rw [migrateModality_other _ transcription visual (by simp),
          migrateModality_other _ audio visual (by simp),
          migrateModality_skip db visual hm]
    | audio =>
        rw [migrateModality_other _ transcription audio (by simp)]
        have hv : targetOf (migrateModality db visual) audio = targetOf db audio :=
          migrateModality_other db visual audio (by simp)
        rw [migrateModality_skip _ audio (by rw [hv]; exact hm), hv]
    | transcription =>
        have hv : targetOf (migrateModality db visual) transcription =
            targetOf db transcription :=
          migrateModality_other db visual transcription (by simp)
        have ha : targetOf (migrateModality (migrateModality db visual) audio) transcription =
            targetOf db transcription := by
          rw [migrateModality_other _ audio transcription (by simp), hv]
        rw [migrateModality_skip _ transcription (by rw [ha]; exact hm), ha]

/-- A database whose visual target is already populated. -/
def dbPopulated : MigrationDB :=
  { source := [{ video_id := "v1", segment_id := 0, s3_uri := "s3://b/v1.mp4",
                 embedding := [1/2], start_time := 0, end_time := 6,
                 created_at := 0, modality_type := visual }]
    visualT := [{ video_id := "v1", segment_id := 0, s3_uri := "s3://b/v1.mp4",
                  embedding := [1/2], start_time := 0, end_time := 6,
                  created_at := 0 }]
    audioT := []
    transcriptionT := [] }

theorem migrate_to_multi_index_frame_witness :
    (migrate_to_multi_index dbPopulated).source = dbPopulated.source ∧
    targetOf dbPopulated visual ≠ [] ∧
    targetOf (migrate_to_multi_index dbPopulated) visual = targetOf dbPopulated visual :=
  ⟨(migrate_to_multi_index_frame dbPopulated).1, by simp [dbPopulated, targetOf],
    (migrate_to_multi_index_frame dbPopulated).2 visual (by simp [dbPopulated, targetOf])⟩

/-! ## Segment index assignment on import (src/import_s3_to_s3vectors.py)

`import_video_to_unified_index` groups embeddings under the key
`f"{start_sec}_{end_sec}"` and assigns `segment_id` by enumerating
`sorted(segments.items())` — a sort by the lexicographic order of the key
STRINGS, not by time.  The key strings and Python's string comparison are
modelled by code-point lists compared lexicographically. -/

/-- The code points of the decimal representation of `n` (the characters of
Python's `str(n)`), most significant first. -/
def decimalCodes (n : Nat) : List Nat := (Nat.toDigits 10 n).map Char.toNat

/-- The code points of the grouping key `f"{start_sec}_{end_sec}"`
(95 is the code of the underscore). -/
def keyCodes (seg : Nat × Nat) : List Nat :=
  decimalCodes seg.1 ++ [95] ++ decimalCodes seg.2

/-- Python's string `<` on code-point lists: strict lexicographic order. -/
def lexLt : List Nat → List Nat → Bool
  | [], [] => false
  | [], _ :: _ => true
  | _ :: _, [] => false
  | a :: as, b :: bs => if a < b then true else if b < a then false else lexLt as bs

/-- Insertion into a list sorted by the keys' lexicographic order. -/
def insertByKey (x : Nat × Nat) : List (Nat × Nat) → List (Nat × Nat)
  | [] => [x]
  | y :: ys => if lexLt (keyCodes x) (keyCodes y) then x :: y :: ys else y :: insertByKey x ys

/-- The order in which `import_video_to_unified_index` enumerates one video's
segments, given their (start, end) times: sorted by the lexicographic order of
the key strings, as `sorted(segments.items())` produces. -/
def importOrder (segs : List (Nat × Nat)) : List (Nat × Nat) :=
  segs.foldr insertByKey []

/-- The `segment_id` the import path assigns to a (start, end) segment of a
video: its position in the enumeration of the sorted keys. -/
def segmentIndex (segs : List (Nat × Nat)) (seg : Nat × Nat) : Option Nat :=
  (importOrder segs).indexOf? seg

/-- C8 failing input: a video whose segments start at 0, 6 and 12 seconds (the
pipeline's own 6-second segmentation).  The key strings sort as
"0_6" < "12_18" < "6_12", so the segment starting at 12 is assigned index 1 and
the segment starting at 6 is assigned index 2: a smaller index with a strictly
later start time, refuting monotonicity of the assigned indices in time. -/
theorem segmentIndex_not_time_monotone :
    importOrder [(0, 6), (6, 12), (12, 18)] = [(0, 6), (12, 18), (6, 12)] ∧
    segmentIndex [(0, 6), (6, 12), (12, 18)] (12, 18) = some 1 ∧
    segmentIndex [(0, 6), (6, 12), (12, 18)] (6, 12) = some 2 ∧
    (1 : Nat) < 2 ∧ (6 : Nat) < 12 := by
  decide
